import Mathlib

/-!
Verification of the Weekly Grocery Management System database module
(`database.py`, with the inventory operations called from `app.py`).

The SQLite-backed store is shallowly embedded as a pure state type
`Store` holding the rows of each table, and every database function of
the source is translated to a pure Lean function on `Store`.  Decimal
columns (`DECIMAL(10,2)`) are modelled as rationals, `INTEGER` columns
as `Int`/`Nat`, and timestamps as epoch-day numbers (`Int`).  Python
exceptions are modelled with `Except String`, carrying the exception
message of the source.
-/

set_option maxRecDepth 4096

namespace GroceryDB

/-! ### Generic list helpers (model of SQL ORDER BY / GROUP BY) -/

/-- Insert an element into a sorted list (insertion step of the sort used
to model SQL `ORDER BY`). -/
def insertLe {α : Type} (le : α → α → Bool) (x : α) : List α → List α
  | [] => [x]
  | y :: ys => if le x y then x :: y :: ys else y :: insertLe le x ys

/-- Insertion sort with respect to a boolean comparison; models SQL
`ORDER BY` (the comparison captures the ordered columns). -/
def sortLe {α : Type} (le : α → α → Bool) : List α → List α
  | [] => []
  | x :: xs => insertLe le x (sortLe le xs)

/-- First-occurrence deduplication of a key list (models the set of
groups produced by SQL `GROUP BY`). -/
def firstKeys {κ : Type} [BEq κ] (l : List κ) : List κ :=
  l.foldl (fun acc k => if acc.contains k then acc else acc ++ [k]) []

/-! ### SHA-256 (model of `hashlib.sha256(...).hexdigest()`) -/

/-- Truncate to a 32-bit word. -/
def w32 (n : Nat) : Nat := n % 4294967296

/-- 32-bit right rotation. -/
def rotr32 (n x : Nat) : Nat := w32 ((x >>> n) ||| (x <<< (32 - n)))

def bigSigma0 (x : Nat) : Nat := rotr32 2 x ^^^ rotr32 13 x ^^^ rotr32 22 x
def bigSigma1 (x : Nat) : Nat := rotr32 6 x ^^^ rotr32 11 x ^^^ rotr32 25 x
def smallSigma0 (x : Nat) : Nat := rotr32 7 x ^^^ rotr32 18 x ^^^ (x >>> 3)
def smallSigma1 (x : Nat) : Nat := rotr32 17 x ^^^ rotr32 19 x ^^^ (x >>> 10)

/-- SHA-256 round constants (decimal rendering of the standard
values). -/
def sha256K : List Nat :=
  [1116352408, 1899447441, 3049323471, 3921009573, 961987163, 1508970993,
   2453635748, 2870763221, 3624381080, 310598401, 607225278, 1426881987,
   1925078388, 2162078206, 2614888103, 3248222580, 3835390401, 4022224774,
   264347078, 604807628, 770255983, 1249150122, 1555081692, 1996064986,
   2554220882, 2821834349, 2952996808, 3210313671, 3336571891, 3584528711,
   113926993, 338241895, 666307205, 773529912, 1294757372, 1396182291,
   1695183700, 1986661051, 2177026350, 2456956037, 2730485921, 2820302411,
   3259730800, 3345764771, 3516065817, 3600352804, 4094571909, 275423344,
   430227734, 506948616, 659060556, 883997877, 958139571, 1322822218,
   1537002063, 1747873779, 1955562222, 2024104815, 2227730452, 2361852424,
   2428436474, 2756734187, 3204031479, 3329325298]

/-- SHA-256 initial hash value (decimal rendering of the standard
values). -/
def sha256init : List Nat :=
  [1779033703, 3144134277, 1013904242, 2773480762,
   1359893119, 2600822924, 528734635, 1541459225]

/-- Extend a 16-word message block to the 64-word schedule (the counter
is the number of words still to generate). -/
def sha256scheduleGo : Nat → Array Nat → Array Nat
  | 0, w => w
  | n+1, w =>
      let i := w.size
      let nw := w32 (w[i-16]! + smallSigma0 (w[i-15]!) + w[i-7]! + smallSigma1 (w[i-2]!))
      sha256scheduleGo n (w.push nw)

/-- One SHA-256 round on the 8-word working state. -/
def sha256round (st : List Nat) (ki wi : Nat) : List Nat :=
  match st with
  | [a, b, c, d, e, f, g, h] =>
      let t1 := w32 (h + bigSigma1 e + (g ^^^ (e &&& (f ^^^ g))) + ki + wi)
      let t2 := w32 (bigSigma0 a + ((a &&& b) ^^^ (c &&& (a ^^^ b))))
      [w32 (t1 + t2), a, b, c, w32 (d + t1), e, f, g]
  | other => other

/-- Compress one 512-bit block into the running hash state. -/
def sha256compress (st : List Nat) (block : List Nat) : List Nat :=
  let w := sha256scheduleGo 48 block.toArray
  let fin := (List.range 64).foldl
    (fun acc i => sha256round acc (sha256K.getD i 0) (w[i]!)) st
  (List.zipWith (fun a b => w32 (a + b)) st fin)

/-- Chunk a list into pieces of `n` elements (fuel-driven). -/
def chunkGo {α : Type} (n : Nat) : Nat → List α → List (List α)
  | 0, _ => []
  | _, [] => []
  | fuel+1, l => l.take n :: chunkGo n fuel (l.drop n)

def chunkList {α : Type} (n : Nat) (l : List α) : List (List α) :=
  chunkGo n l.length l

/-- Big-endian byte decomposition (`k` bytes) of a number. -/
def beBytes (k n : Nat) : List Nat :=
  (List.range k).map (fun i => (n >>> ((k - 1 - i) * 8)) % 256)

/-- SHA-256 message padding over a byte list. -/
def sha256pad (msg : List Nat) : List Nat :=
  let len := msg.length
  let zeros := (120 - ((len + 1) % 64)) % 64
  msg ++ [0x80] ++ List.replicate zeros 0 ++ beBytes 8 (len * 8)

/-- Assemble 4 big-endian bytes into one 32-bit word. -/
def bytesToWords (bytes : List Nat) : List Nat :=
  (chunkList 4 bytes).map (fun b => b.foldl (fun a x => a * 256 + x) 0)

/-- UTF-8 encoding of one character, as byte values (model of Python
`str.encode()`). -/
def utf8EncodeCharNat (c : Char) : List Nat :=
  let n := c.toNat
  if n < 0x80 then [n]
  else if n < 0x800 then [0xC0 ||| (n >>> 6), 0x80 ||| (n &&& 0x3F)]
  else if n < 0x10000 then
    [0xE0 ||| (n >>> 12), 0x80 ||| ((n >>> 6) &&& 0x3F), 0x80 ||| (n &&& 0x3F)]
  else
    [0xF0 ||| (n >>> 18), 0x80 ||| ((n >>> 12) &&& 0x3F),
     0x80 ||| ((n >>> 6) &&& 0x3F), 0x80 ||| (n &&& 0x3F)]

/-- UTF-8 bytes of a string (model of Python `password.encode()`). -/
def strBytes (s : String) : List Nat :=
  s.data.foldr (fun c acc => utf8EncodeCharNat c ++ acc) []

def hexDigits : List Char := "0123456789abcdef".data

/-- Lower-case hexadecimal rendering of one 32-bit word. -/
def toHex8 (n : Nat) : String :=
  String.mk ((List.range 8).map (fun i => hexDigits.getD ((n >>> ((7 - i) * 4)) % 16) '0'))

/-- Full SHA-256 hex digest of a string, as produced by
`hashlib.sha256(s.encode()).hexdigest()`. -/
def sha256hex (s : String) : String :=
  let padded := sha256pad (strBytes s)
  let blocks := (chunkList 64 padded).map bytesToWords
  let st := blocks.foldl sha256compress sha256init
  String.join (st.map toHex8)

/-! ### Data model

One structure per SQLite table of `init_database`.  `DECIMAL(10,2)`
columns are rationals, id columns are `Nat`, quantity columns are `Int`
(SQLite `INTEGER`, never range-checked by the source), timestamps are
epoch-day numbers (`Int`).  Each table with an `AUTOINCREMENT` primary
key gets a `next_..._id` counter in `Store`; SQLite `AUTOINCREMENT`
guarantees ids are never reused, i.e. the counter always exceeds every
id ever handed out. -/

structure UserRow where
  user_id : Nat
  username : String
  email : String
  password_hash : String
  deriving Repr, DecidableEq

structure CategoryRow where
  category_id : Nat
  category_name : String
  description : Option String
  deriving Repr, DecidableEq

structure ProductRow where
  product_id : Nat
  product_name : String
  category_id : Nat
  brand : Option String
  unit_price : ℚ
  unit_measure : String
  deriving Repr, DecidableEq

structure OrderRow where
  order_id : Nat
  user_id : Nat
  order_date : Int
  total_amount : ℚ
  status : String
  deriving Repr, DecidableEq

structure OrderDetailRow where
  detail_id : Nat
  order_id : Nat
  product_id : Nat
  quantity : Int
  unit_price : ℚ
  subtotal : ℚ
  deriving Repr, DecidableEq

structure ShoppingListRow where
  list_id : Nat
  user_id : Nat
  list_name : String
  is_active : Bool
  deriving Repr, DecidableEq

structure ShoppingListItemRow where
  item_id : Nat
  list_id : Nat
  product_id : Nat
  quantity : Int
  is_purchased : Bool
  deriving Repr, DecidableEq

structure Store where
  users : List UserRow
  categories : List CategoryRow
  products : List ProductRow
  orders : List OrderRow
  order_details : List OrderDetailRow
  shopping_lists : List ShoppingListRow
  shopping_list_items : List ShoppingListItemRow
  next_user_id : Nat
  next_order_id : Nat
  next_detail_id : Nat
  next_list_id : Nat
  next_item_id : Nat
  deriving Repr, DecidableEq

/-! ### Credential store (`hash_password`, `verify_password`,
`create_user`, `get_user_by_username`, `authenticate_user`) -/

/-- `hash_password`: SHA-256 hex digest of the UTF-8 encoded password —
`hashlib.sha256(password.encode()).hexdigest()`. -/
def hash_password (password : String) : String :=
  sha256hex password

/-- `verify_password`: re-hash and compare. -/
def verify_password (password hashed : String) : Bool :=
  hash_password password == hashed

/-- `create_user`: INSERT with the hashed password; the UNIQUE
constraints on `username` and `email` raise `IntegrityError`, turned
into `ValueError` by the source. -/
def create_user (s : Store) (username email password : String) :
    Except String (Store × Nat) :=
  if s.users.any (fun u => u.username == username) ||
      s.users.any (fun u => u.email == email) then
    .error "User already exists"
  else
    let uid := s.next_user_id
    .ok ({ s with
            users := s.users ++ [⟨uid, username, email, hash_password password⟩],
            next_user_id := uid + 1 }, uid)

/-- `get_user_by_username`: `SELECT * FROM users WHERE username = ?`
followed by `fetchone()` (usernames are UNIQUE, so `find?` and SQL
agree). -/
def get_user_by_username (s : Store) (username : String) : Option UserRow :=
  s.users.find? (fun u => u.username == username)

/-- `authenticate_user`: returns the user row when the stored hash
matches, `None` otherwise. -/
def authenticate_user (s : Store) (username password : String) : Option UserRow :=
  match get_user_by_username s username with
  | some user => if verify_password password user.password_hash then some user else none
  | none => none

/-! ### Order engine (`create_order`, `add_order_detail`,
`complete_order`, `delete_order`, `get_order_by_id`) -/

/-- `create_order`: INSERT with status `pending` and the default total
`0`; `order_date` defaults to the current timestamp, passed here as the
explicit parameter `now`. -/
def create_order (s : Store) (user_id : Nat) (now : Int) : Store × Nat :=
  let oid := s.next_order_id
  ({ s with
      orders := s.orders ++ [⟨oid, user_id, now, 0, "pending"⟩],
      next_order_id := oid + 1 }, oid)

/-- The rows `SELECT * FROM order_details WHERE order_id = ?` returns. -/
def orderDetailsOf (s : Store) (oid : Nat) : List OrderDetailRow :=
  s.order_details.filter (fun d => d.order_id == oid)

/-- `add_order_detail`: looks up the product (raising
`ValueError("Product not found")` when absent — the quantity is never
validated), snapshots its current price, inserts the line item, then
overwrites the order total with `SELECT SUM(subtotal) FROM
order_details WHERE order_id = ?`.  `product_id` is a primary key, so
the SQL `fetchone()` is `find?`. -/
def add_order_detail (s : Store) (oid pid : Nat) (quantity : Int) :
    Except String (Store × Nat) :=
  match s.products.find? (fun p => p.product_id == pid) with
  | none => .error "Product not found"
  | some product =>
      let unit_price := product.unit_price
      let subtotal := unit_price * (quantity : ℚ)
      let did := s.next_detail_id
      let details := s.order_details ++ [⟨did, oid, pid, quantity, unit_price, subtotal⟩]
      let newTotal := ((details.filter (fun d => d.order_id == oid)).map
        (fun d => d.subtotal)).sum
      .ok ({ s with
              order_details := details,
              orders := s.orders.map (fun o =>
                if o.order_id == oid then { o with total_amount := newTotal } else o),
              next_detail_id := did + 1 }, did)

/-- `complete_order`: `UPDATE orders SET status = 'completed'`; the
returned boolean is `cursor.rowcount > 0`. -/
def complete_order (s : Store) (oid : Nat) : Store × Bool :=
  ({ s with
      orders := s.orders.map (fun o =>
        if o.order_id == oid then { o with status := "completed" } else o) },
   s.orders.any (fun o => o.order_id == oid))

/-- `delete_order`: `DELETE FROM orders WHERE order_id = ?`.  The
`order_details` rows are NOT touched: the schema declares `ON DELETE
CASCADE`, but `get_connection` never executes `PRAGMA foreign_keys =
ON`, and Python sqlite3 connections leave foreign-key enforcement (and
with it the cascade) disabled by default — so deleting an order leaves
its line items orphaned.  The returned boolean is
`cursor.rowcount > 0`. -/
def delete_order (s : Store) (oid : Nat) : Store × Bool :=
  ({ s with orders := s.orders.filter (fun o => !(o.order_id == oid)) },
   s.orders.any (fun o => o.order_id == oid))

/-- `get_order_by_id` (`fetchone` on a primary-key lookup). -/
def get_order_by_id (s : Store) (oid : Nat) : Option OrderRow :=
  s.orders.find? (fun o => o.order_id == oid)

/-! ### Shopping list engine -/

/-- `create_shopping_list`: INSERT with `is_active` defaulting to 1. -/
def create_shopping_list (s : Store) (user_id : Nat) (list_name : String) :
    Store × Nat :=
  let lid := s.next_list_id
  ({ s with
      shopping_lists := s.shopping_lists ++ [⟨lid, user_id, list_name, true⟩],
      next_list_id := lid + 1 }, lid)

/-- `add_item_to_shopping_list`: SELECT for an existing `(list_id,
product_id)` row; UPDATE `quantity = quantity + ?` when present,
otherwise INSERT a fresh row (`is_purchased` defaults to 0).  The
source returns the stale `cursor.lastrowid`, which no caller uses; the
embedding returns the updated store. -/
def add_item_to_shopping_list (s : Store) (lid pid : Nat) (quantity : Int) :
    Store :=
  match s.shopping_list_items.find?
      (fun i => i.list_id == lid && i.product_id == pid) with
  | some _ =>
      { s with
          shopping_list_items := s.shopping_list_items.map (fun i =>
            if i.list_id == lid && i.product_id == pid then
              { i with quantity := i.quantity + quantity }
            else i) }
  | none =>
      let iid := s.next_item_id
      { s with
          shopping_list_items :=
            s.shopping_list_items ++ [⟨iid, lid, pid, quantity, false⟩],
          next_item_id := iid + 1 }

/-- Row shape of `get_shopping_list_items`: the list item joined with
its product and the product's category. -/
structure SLIJoinedRow where
  item_id : Nat
  list_id : Nat
  product_id : Nat
  quantity : Int
  is_purchased : Bool
  product_name : String
  brand : Option String
  unit_price : ℚ
  unit_measure : String
  category_name : String
  deriving Repr, DecidableEq

/-- The join body of `get_shopping_list_items` for one item row: inner
joins on `products` and `categories` (an item whose product or category
row is missing produces no output row).  Both `product_id` and
`category_id` are primary keys, so `find?` coincides with the SQL
join. -/
def joinItem (s : Store) (i : ShoppingListItemRow) : Option SLIJoinedRow :=
  match s.products.find? (fun p => p.product_id == i.product_id) with
  | none => none
  | some p =>
      match s.categories.find? (fun c => c.category_id == p.category_id) with
      | none => none
      | some c =>
          some ⟨i.item_id, i.list_id, i.product_id, i.quantity, i.is_purchased,
                p.product_name, p.brand, p.unit_price, p.unit_measure,
                c.category_name⟩

/-- Boolean lexicographic order on character lists (by code point). -/
def charListLt : List Char → List Char → Bool
  | [], [] => false
  | [], _ :: _ => true
  | _ :: _, [] => false
  | c :: cs, d :: ds =>
      c.toNat < d.toNat || (c.toNat == d.toNat && charListLt cs ds)

/-- Boolean string comparison (lexicographic by code point; models the
ordering SQLite applies to TEXT columns). -/
def strLtB (a b : String) : Bool := charListLt a.data b.data

/-- Comparison used for `ORDER BY c.category_name, p.product_name`. -/
def sliLe (a b : SLIJoinedRow) : Bool :=
  strLtB a.category_name b.category_name ||
    (a.category_name == b.category_name && !(strLtB b.product_name a.product_name))

/-- `get_shopping_list_items`: items of the list joined with product
and category, ordered by category name then product name. -/
def get_shopping_list_items (s : Store) (lid : Nat) : List SLIJoinedRow :=
  sortLe sliLe
    ((s.shopping_list_items.filter (fun i => i.list_id == lid)).filterMap
      (joinItem s))

/-- `toggle_shopping_list_item`: `UPDATE ... SET is_purchased = NOT
is_purchased WHERE item_id = ?`; returns `cursor.rowcount > 0`. -/
def toggle_shopping_list_item (s : Store) (iid : Nat) : Store × Bool :=
  ({ s with
      shopping_list_items := s.shopping_list_items.map (fun i =>
        if i.item_id == iid then { i with is_purchased := !i.is_purchased } else i) },
   s.shopping_list_items.any (fun i => i.item_id == iid))

/-- The `for item in items: add_order_detail(...)` loop of
`convert_shopping_list_to_order`. -/
def run_items (oid : Nat) : Store → List SLIJoinedRow → Except String Store
  | s, [] => .ok s
  | s, it :: rest =>
      match add_order_detail s oid it.product_id it.quantity with
      | .error e => .error e
      | .ok (s1, _) => run_items oid s1 rest

/-- `convert_shopping_list_to_order`: read the joined list items
(raising `ValueError("Shopping list is empty")` when that join is
empty — note there is NO check of `is_active`), create a fresh order,
add one line item per joined row at the product's current price,
complete the order, and set the list's `is_active` to 0.  The list's
items are never deleted. -/
def convert_shopping_list_to_order (s : Store) (lid user_id : Nat) (now : Int) :
    Except String (Store × Nat) :=
  if (get_shopping_list_items s lid).isEmpty then .error "Shopping list is empty"
  else
    match run_items (create_order s user_id now).2 (create_order s user_id now).1
        (get_shopping_list_items s lid) with
    | .error e => .error e
    | .ok s2 =>
        .ok ({ (complete_order s2 (create_order s user_id now).2).1 with
                shopping_lists :=
                  (complete_order s2 (create_order s user_id now).2).1.shopping_lists.map
                    (fun l =>
                      if l.list_id == lid then { l with is_active := false } else l) },
             (create_order s user_id now).2)

/-! ### Analytics engine

`order_date` is an epoch-day number.  `strftime` month extraction is
modelled with the standard civil-from-days conversion; the SQLite
string comparisons `order_date >= date('now', '-7 days')` and
`>= date('now', '-30 days')` become `now - 7 ≤ day` and
`now - 30 ≤ day`. -/

/-- Civil (year, month, day) of an epoch-day number (`Int` division
truncates toward zero, matching the reference algorithm). -/
def civilFromDays (z0 : Int) : Int × Int × Int :=
  let z := z0 + 719468
  let era := (if 0 ≤ z then z else z - 146096) / 146097
  let doe := z - era * 146097
  let yoe := (doe - doe / 1460 + doe / 36524 - doe / 146096) / 365
  let y := yoe + era * 400
  let doy := doe - (365 * yoe + yoe / 4 - yoe / 100)
  let mp := (5 * doy + 2) / 153
  let d := doy - (153 * mp + 2) / 5 + 1
  let m := mp + (if mp < 10 then 3 else -9)
  (y + (if m ≤ 2 then 1 else 0), m, d)

/-- `strftime('%Y-%m', order_date)` as a (year, month) pair. -/
def monthKey (day : Int) : Int × Int :=
  ((civilFromDays day).1, (civilFromDays day).2.1)

/-- `strftime('%Y', order_date)` as a year number. -/
def yearKey (day : Int) : Int :=
  (civilFromDays day).1

/-- `get_total_spending`: `SUM(total_amount)` (`NULL`, i.e. `none`,
when the user has no completed orders) and `COUNT(*)` over the user's
completed orders. -/
def get_total_spending (s : Store) (uid : Nat) : Option ℚ × Nat :=
  let rows := s.orders.filter (fun o => o.user_id == uid && o.status == "completed")
  (if rows.isEmpty then none else some ((rows.map (fun o => o.total_amount)).sum),
   rows.length)

/-- The joined rows `(category_id, category_name, subtotal)` feeding
`get_spending_by_category`: line items of the user's completed orders
within the optional inclusive date range, joined with product and
category. -/
def spendingRows (s : Store) (uid : Nat) (startD endD : Option Int) :
    List (Nat × String × ℚ) :=
  s.order_details.filterMap (fun od =>
    match s.orders.find? (fun o => o.order_id == od.order_id && o.user_id == uid &&
        o.status == "completed" &&
        (match startD with | none => true | some d => decide (d ≤ o.order_date)) &&
        (match endD with | none => true | some d => decide (o.order_date ≤ d))) with
    | none => none
    | some _ =>
        match s.products.find? (fun p => p.product_id == od.product_id) with
        | none => none
        | some p =>
            match s.categories.find? (fun c => c.category_id == p.category_id) with
            | none => none
            | some c => some (c.category_id, c.category_name, od.subtotal))

/-- `get_spending_by_category`: subtotals grouped by category id,
ordered descending by total. -/
def get_spending_by_category (s : Store) (uid : Nat) (startD endD : Option Int) :
    List (String × ℚ) :=
  let rows := spendingRows s uid startD endD
  let keys := firstKeys (rows.map (fun r => r.1))
  let groups := keys.map (fun k =>
    let sub := rows.filter (fun r => r.1 == k)
    (((sub.head?).map (fun r => r.2.1)).getD "", (sub.map (fun r => r.2.2)).sum))
  sortLe (fun a b => decide (b.2 ≤ a.2)) groups

/-- `get_monthly_spending`: the user's completed orders (optionally
restricted to one year), grouped by calendar month, ascending; each
group carries `SUM(total_amount)` and `COUNT(*)`. -/
def get_monthly_spending (s : Store) (uid : Nat) (year : Option Int) :
    List ((Int × Int) × ℚ × Nat) :=
  let rows := s.orders.filter (fun o => o.user_id == uid && o.status == "completed" &&
    (match year with | none => true | some y => (monthKey o.order_date).1 == y))
  let keys := sortLe
    (fun a b => decide (a.1 < b.1) || (a.1 == b.1 && decide (a.2 ≤ b.2)))
    (firstKeys (rows.map (fun o => monthKey o.order_date)))
  keys.map (fun k =>
    let sub := rows.filter (fun o => monthKey o.order_date == k)
    (k, (sub.map (fun o => o.total_amount)).sum, sub.length))

/-- `get_weekly_spending`: daily totals of the user's completed orders
from the last 7 days, grouped by day, ascending. -/
def get_weekly_spending (s : Store) (uid : Nat) (now : Int) :
    List (Int × ℚ) :=
  let rows := s.orders.filter (fun o => o.user_id == uid && o.status == "completed" &&
    decide (now - 7 ≤ o.order_date))
  let keys := sortLe (fun a b => decide (a ≤ b))
    (firstKeys (rows.map (fun o => o.order_date)))
  keys.map (fun k =>
    (k, ((rows.filter (fun o => o.order_date == k)).map (fun o => o.total_amount)).sum))

/-- The joined rows feeding `get_most_purchased_products`: one row per
line item of a completed order of the user, carrying the product id,
names, quantity and order id. -/
def purchasedRows (s : Store) (uid : Nat) :
    List (Nat × String × Option String × String × Int × Nat) :=
  s.order_details.filterMap (fun od =>
    match s.orders.find? (fun o => o.order_id == od.order_id && o.user_id == uid &&
        o.status == "completed") with
    | none => none
    | some o =>
        match s.products.find? (fun p => p.product_id == od.product_id) with
        | none => none
        | some p =>
            match s.categories.find? (fun c => c.category_id == p.category_id) with
            | none => none
            | some c =>
                some (p.product_id, p.product_name, p.brand, c.category_name,
                      od.quantity, o.order_id))

/-- `get_most_purchased_products`: quantities grouped by product,
with `COUNT(DISTINCT order_id)`, ordered by total quantity descending,
first `limit` groups. -/
def get_most_purchased_products (s : Store) (uid : Nat) (limit : Nat) :
    List (String × Option String × String × Int × Nat) :=
  let rows := purchasedRows s uid
  let keys := firstKeys (rows.map (fun r => r.1))
  let groups := keys.map (fun k =>
    let sub := rows.filter (fun r => r.1 == k)
    (((sub.head?).map (fun r => r.2.1)).getD "",
     ((sub.head?).map (fun r => r.2.2.1)).getD none,
     ((sub.head?).map (fun r => r.2.2.2.1)).getD "",
     (sub.map (fun r => r.2.2.2.2.1)).sum,
     (firstKeys (sub.map (fun r => r.2.2.2.2.2))).length))
  (sortLe (fun a b => decide (b.2.2.2.1 ≤ a.2.2.2.1)) groups).take limit

/-- The `UserCategories` CTE of `get_suggested_products`: category ids
of the user's purchases ranked by row count, first five.  NOTE: the
source filters only on `o.user_id` — there is no
`status = 'completed'` condition in this CTE. -/
def userTopCategories (s : Store) (uid : Nat) : List Nat :=
  let rows := s.order_details.filterMap (fun od =>
    match s.orders.find? (fun o => o.order_id == od.order_id && o.user_id == uid) with
    | none => none
    | some _ =>
        (s.products.find? (fun p => p.product_id == od.product_id)).map
          (fun p => p.category_id))
  let keys := firstKeys rows
  let freq := keys.map (fun k => (k, (rows.filter (fun r => r == k)).length))
  ((sortLe (fun a b => decide (b.2 ≤ a.2)) freq).take 5).map (fun r => r.1)

/-- The `RecentProducts` CTE of `get_suggested_products`: distinct
product ids from the user's orders of the trailing 30 days.  NOTE: the
source filters only on `o.user_id` and the date — again no status
condition. -/
def recentProducts (s : Store) (uid : Nat) (now : Int) : List Nat :=
  firstKeys (s.order_details.filterMap (fun od =>
    match s.orders.find? (fun o => o.order_id == od.order_id && o.user_id == uid &&
        decide (now - 30 ≤ o.order_date)) with
    | none => none
    | some _ => some od.product_id))

/-- The deterministic candidate pool of `get_suggested_products`:
products (joined with their category) whose category is among the
user's top five and which the user has not bought in the last 30 days.
The source emits `min limit pool.length` of exactly these rows, chosen
by `ORDER BY RANDOM() LIMIT ?` — the random step only permutes and
truncates this pool. -/
def get_suggested_products_pool (s : Store) (uid : Nat) (now : Int) :
    List (ProductRow × String) :=
  let cats := userTopCategories s uid
  let recent := recentProducts s uid now
  s.products.filterMap (fun p =>
    if cats.contains p.category_id && !(recent.contains p.product_id) then
      (s.categories.find? (fun c => c.category_id == p.category_id)).map
        (fun c => (p, c.category_name))
    else none)

/-- The store with every non-completed order removed (used to express
"a pending order never influences the result"). -/
def completedOnly (s : Store) : Store :=
  { s with orders := s.orders.filter (fun o => o.status == "completed") }

/-! ### Inventory engine (modelled from the spec)

The inventory functions (`use_inventory_item`, `get_low_stock_items`,
`get_out_of_stock_items`, ...) are called from `app.py` but their
implementations are not among the provided sources; they are modelled
from the spec, §3 and §4.3. -/

/-- Modelled from the spec: the inventory row of §3 — quantity on
hand, minimum-quantity threshold, optional expiry day, location,
notes. -/
structure InventoryItemRow where
  inventory_id : Nat
  user_id : Nat
  product_id : Nat
  quantity : Int
  min_quantity : Int
  expiry_date : Option Int
  location : String
  notes : Option String
  deriving Repr, DecidableEq

/-- Modelled from the spec: `useItem(id, amount)` (§4.3, missing from
the sources) — "fails with `InvalidArgument` if amount ≤ 0; decrements
quantity by `amount`, clamped at 0 (never negative)". -/
def use_inventory_item (inv : List InventoryItemRow) (iid : Nat) (amount : Int) :
    Except String (List InventoryItemRow) :=
  if amount ≤ 0 then .error "InvalidArgument"
  else .ok (inv.map (fun i =>
    if i.inventory_id == iid then { i with quantity := max (i.quantity - amount) 0 }
    else i))

/-- Modelled from the spec: low stock = "quantity > 0 AND quantity ≤
minQuantity" (§4.3), over the user's rows. -/
def get_low_stock_items (inv : List InventoryItemRow) (uid : Nat) :
    List InventoryItemRow :=
  inv.filter (fun i => i.user_id == uid && decide (0 < i.quantity) &&
    decide (i.quantity ≤ i.min_quantity))

/-- Modelled from the spec: out of stock = "quantity == 0" (§4.3),
over the user's rows. -/
def get_out_of_stock_items (inv : List InventoryItemRow) (uid : Nat) :
    List InventoryItemRow :=
  inv.filter (fun i => i.user_id == uid && i.quantity == 0)

/-! ### Concrete stores and proof-side definitions -/

/-- Concrete stores used by the witnesses and counterexamples: one
user, one category, two products (unit prices 3 and 5), one active
shopping list holding product 1 twice and product 2 once — the worked
example of the spec (§8). -/
def exampleStore : Store where
  users := [⟨1, "demo_user", "demo@example.com", "h"⟩]
  categories := [⟨1, "Dairy", none⟩]
  products := [⟨1, "Milk", 1, none, 3, "unit"⟩, ⟨2, "Eggs", 1, none, 5, "unit"⟩]
  orders := []
  order_details := []
  shopping_lists := [⟨1, 1, "weekly", true⟩]
  shopping_list_items := [⟨1, 1, 1, 2, false⟩, ⟨2, 1, 2, 1, false⟩]
  next_user_id := 2
  next_order_id := 1
  next_detail_id := 1
  next_list_id := 2
  next_item_id := 3

/-- A store holding one pending order (id 1, one line item). -/
def orderStore : Store where
  users := [⟨1, "demo_user", "demo@example.com", "h"⟩]
  categories := [⟨1, "Dairy", none⟩]
  products := [⟨1, "Milk", 1, none, 3, "unit"⟩]
  orders := [⟨1, 1, 0, 6, "pending"⟩]
  order_details := [⟨1, 1, 1, 2, 3, 6⟩]
  shopping_lists := []
  shopping_list_items := []
  next_user_id := 2
  next_order_id := 2
  next_detail_id := 2
  next_list_id := 1
  next_item_id := 1

/-- The empty store. -/
def emptyStore : Store where
  users := []
  categories := []
  products := []
  orders := []
  order_details := []
  shopping_lists := []
  shopping_list_items := []
  next_user_id := 1
  next_order_id := 1
  next_detail_id := 1
  next_list_id := 1
  next_item_id := 1

/-- A store with a shopping list that has zero items. -/
def emptyListStore : Store :=
  { emptyStore with
      users := [⟨1, "demo_user", "demo@example.com", "h"⟩],
      shopping_lists := [⟨1, 1, "empty list", true⟩],
      next_user_id := 2,
      next_list_id := 2 }

/-- A store whose only order is PENDING: user 1 bought product 1
(category 1) in a pending order; product 2 shares the category and was
never bought. -/
def pendingStore : Store where
  users := [⟨1, "demo_user", "demo@example.com", "h"⟩]
  categories := [⟨1, "Dairy", none⟩]
  products := [⟨1, "Milk", 1, none, 3, "unit"⟩, ⟨2, "Eggs", 1, none, 5, "unit"⟩]
  orders := [⟨1, 1, 100, 3, "pending"⟩]
  order_details := [⟨1, 1, 1, 1, 3, 3⟩]
  shopping_lists := []
  shopping_list_items := []
  next_user_id := 2
  next_order_id := 2
  next_detail_id := 2
  next_list_id := 1
  next_item_id := 1

/-- A sequence of successful `add_order_detail` calls against one
order, threading the store. -/
def run_adds (oid : Nat) : Store → List (Nat × Int) → Except String Store
  | s, [] => .ok s
  | s, r :: rest =>
      match add_order_detail s oid r.1 r.2 with
      | .error e => .error e
      | .ok p => run_adds oid p.1 rest

/-- The C1 invariant: the order exists, its stored total equals the
sum of its line items' subtotals, and every line item's subtotal is
its snapshot price times its quantity. -/
def orderInvariant (s : Store) (oid : Nat) : Prop :=
  (∃ o ∈ s.orders, o.order_id = oid) ∧
  (∀ o ∈ s.orders, o.order_id = oid →
    o.total_amount = ((orderDetailsOf s oid).map (fun d => d.subtotal)).sum) ∧
  (∀ d ∈ orderDetailsOf s oid, d.subtotal = d.unit_price * (d.quantity : ℚ))

/-- Value projection of a line item (everything except the
autoincrement `detail_id`). -/
def dproj (d : OrderDetailRow) : Nat × Nat × Int × ℚ × ℚ :=
  (d.order_id, d.product_id, d.quantity, d.unit_price, d.subtotal)

/-- Value projection of an order (everything except the derived
`total_amount`). -/
def oproj (o : OrderRow) : Nat × Nat × Int × String :=
  (o.order_id, o.user_id, o.order_date, o.status)

/-- The line item `add_order_detail` produces for one joined list item
(as a `dproj` value): the item's product and quantity at the joined
(current) product price. -/
def itemDetail (oid : Nat) (it : SLIJoinedRow) : Nat × Nat × Int × ℚ × ℚ :=
  (oid, it.product_id, it.quantity, it.unit_price, it.unit_price * (it.quantity : ℚ))

/-- The store a successful conversion leaves behind (projection used
to state concrete executions). -/
def convertStore (s : Store) (lid uid : Nat) (now : Int) : Option Store :=
  match convert_shopping_list_to_order s lid uid now with
  | .ok p => some p.1
  | .error _ => none

/-- The order id a successful conversion returns (projection used to
state concrete executions). -/
def convertOrderId (s : Store) (lid uid : Nat) (now : Int) : Option Nat :=
  match convert_shopping_list_to_order s lid uid now with
  | .ok p => some p.2
  | .error _ => none


/-! ### Helper lemmas -/

theorem insertLe_perm {α : Type} (le : α → α → Bool) (x : α) (l : List α) :
    List.Perm (insertLe le x l) (x :: l) := by
  induction l with
  | nil => exact List.Perm.refl _
  | cons y ys ih =>
      simp only [insertLe]
      by_cases h : le x y = true
      · rw [if_pos h]
      · rw [if_neg h]
        exact (ih.cons y).trans (List.Perm.swap x y ys)

theorem sortLe_perm {α : Type} (le : α → α → Bool) (l : List α) :
    List.Perm (sortLe le l) l := by
  induction l with
  | nil => exact List.Perm.refl _
  | cons x xs ih =>
      exact (insertLe_perm le x (sortLe le xs)).trans (ih.cons x)

theorem mem_sortLe {α : Type} {le : α → α → Bool} {x : α} {l : List α} :
    x ∈ sortLe le l ↔ x ∈ l :=
  (sortLe_perm le l).mem_iff

/-- `find?` over a filtered list agrees with `find?` over the original
list when the searched-for predicate implies the filter predicate. -/
theorem find?_filter_of_imp {α : Type} {p q : α → Bool} (l : List α)
    (h : ∀ a, p a = true → q a = true) :
    (l.filter q).find? p = l.find? p := by
  induction l with
  | nil => rfl
  | cons x xs ih =>
      by_cases hp : p x = true
      · have hq : q x = true := h x hp
        simp [List.filter, hq, List.find?, hp]
      · by_cases hq : q x = true
        · simp [List.filter, hq, List.find?, hp, ih]
        · simp [List.filter, hq, List.find?, hp, ih]


theorem map_eq_self_of {α : Type} {f : α → α} {l : List α}
    (h : ∀ a ∈ l, f a = a) : l.map f = l := by
  induction l with
  | nil => rfl
  | cons x xs ih =>
      simp only [List.map_cons, h x (List.mem_cons_self x xs)]
      rw [ih (fun a ha => h a (List.mem_cons_of_mem x ha))]

/-! ### C10 — missing ids: no-op, `False` returned, no exception -/

/-- C10: for an `order_id` with no orders row, `complete_order` and
`delete_order` return the unchanged store and `false`, and for an
`item_id` with no shopping-list-item row, `toggle_shopping_list_item`
does the same; none of the three can raise (they return a plain pair,
not an `Except`). -/
theorem missing_id_operations_noop (s : Store) (oid iid : Nat)
    (ho : ∀ o ∈ s.orders, o.order_id ≠ oid)
    (hi : ∀ i ∈ s.shopping_list_items, i.item_id ≠ iid) :
    complete_order s oid = (s, false) ∧
    delete_order s oid = (s, false) ∧
    toggle_shopping_list_item s iid = (s, false) := by
  have hobeq : ∀ o ∈ s.orders, (o.order_id == oid) = false := by
    intro o hmem
    simpa using ho o hmem
  have hibeq : ∀ i ∈ s.shopping_list_items, (i.item_id == iid) = false := by
    intro i hmem
    simpa using hi i hmem
  have hoany : s.orders.any (fun o => o.order_id == oid) = false := by
    simp only [List.any_eq_false]
    intro o hmem
    simp [hobeq o hmem]
  have hiany : s.shopping_list_items.any (fun i => i.item_id == iid) = false := by
    simp only [List.any_eq_false]
    intro i hmem
    simp [hibeq i hmem]
  refine ⟨?_, ?_, ?_⟩
  · unfold complete_order
    rw [hoany, map_eq_self_of (fun o hmem => by rw [hobeq o hmem]; rfl)]
  · unfold delete_order
    rw [hoany, List.filter_eq_self.mpr (fun o hmem => by rw [hobeq o hmem]; rfl)]
  · unfold toggle_shopping_list_item
    rw [hiany, map_eq_self_of (fun i hmem => by rw [hibeq i hmem]; rfl)]

/-- Witness for C10 at a concrete input. -/
theorem missing_id_operations_noop_witness :
    complete_order exampleStore 42 = (exampleStore, false) ∧
    delete_order exampleStore 42 = (exampleStore, false) ∧
    toggle_shopping_list_item exampleStore 42 = (exampleStore, false) :=
  missing_id_operations_noop exampleStore 42 42 (by decide) (by decide)

/-! ### C9 — `useItem` clamps at zero; stock classification -/

/-- C9 (modelled from the spec, the inventory implementation being
absent from the sources): `use_inventory_item` fails with
`InvalidArgument` for `amount ≤ 0`; with quantity 3 and amount 10 the
item ends at quantity exactly 0 and then lies in the out-of-stock
query but not in the low-stock query. -/
theorem useItem_clamps_at_zero (inv : List InventoryItemRow) (iid uid : Nat)
    (i : InventoryItemRow) (hmem : i ∈ inv) (hid : i.inventory_id = iid)
    (hu : i.user_id = uid) (hq : i.quantity = 3) :
    (∀ a : Int, a ≤ 0 → use_inventory_item inv iid a = .error "InvalidArgument") ∧
    (∃ inv', use_inventory_item inv iid 10 = .ok inv' ∧
      ({ i with quantity := 0 } : InventoryItemRow) ∈ inv' ∧
      ({ i with quantity := 0 } : InventoryItemRow) ∈ get_out_of_stock_items inv' uid ∧
      ({ i with quantity := 0 } : InventoryItemRow) ∉ get_low_stock_items inv' uid) := by
  constructor
  · intro a ha
    unfold use_inventory_item
    rw [if_pos ha]
  · refine ⟨inv.map (fun j =>
      if j.inventory_id == iid then { j with quantity := max (j.quantity - 10) 0 }
      else j), ?_, ?_, ?_, ?_⟩
    · unfold use_inventory_item
      rw [if_neg (by decide)]
    · refine List.mem_map.mpr ⟨i, hmem, ?_⟩
      rw [if_pos (by simp [hid])]
      simp [hq]
    · refine List.mem_filter.mpr ⟨?_, ?_⟩
      · refine List.mem_map.mpr ⟨i, hmem, ?_⟩
        rw [if_pos (by simp [hid])]
        simp [hq]
      · simp [get_out_of_stock_items, hu]
    · intro hcontra
      have := (List.mem_filter.mp hcontra).2
      simp at this

/-- Witness for C9 at a concrete inventory. -/
theorem useItem_clamps_at_zero_witness :
    (∀ a : Int, a ≤ 0 →
      use_inventory_item [⟨7, 1, 1, 3, 2, none, "Pantry", none⟩] 7 a =
        .error "InvalidArgument") ∧
    (∃ inv', use_inventory_item [⟨7, 1, 1, 3, 2, none, "Pantry", none⟩] 7 10 = .ok inv' ∧
      (⟨7, 1, 1, 0, 2, none, "Pantry", none⟩ : InventoryItemRow) ∈ inv' ∧
      (⟨7, 1, 1, 0, 2, none, "Pantry", none⟩ : InventoryItemRow) ∈
        get_out_of_stock_items inv' 1 ∧
      (⟨7, 1, 1, 0, 2, none, "Pantry", none⟩ : InventoryItemRow) ∉
        get_low_stock_items inv' 1) :=
  useItem_clamps_at_zero [⟨7, 1, 1, 3, 2, none, "Pantry", none⟩] 7 1
    ⟨7, 1, 1, 3, 2, none, "Pantry", none⟩ (by decide) (by decide) (by decide) (by decide)

/-! ### C5 — `delete_order` does not cascade to `order_details` -/

/-- C5 (evaluation at the failing input): `delete_order` removes the
orders row and reports success, but the order's `order_details` row
survives — `get_connection` never runs `PRAGMA foreign_keys = ON`, so
the `ON DELETE CASCADE` declared in `init_database` is not enforced by
SQLite and the line item is orphaned, contradicting the claimed
cascade. -/
theorem delete_order_orphans_line_items :
    (delete_order orderStore 1).2 = true ∧
    (delete_order orderStore 1).1.orders = [] ∧
    (delete_order orderStore 1).1.order_details = [⟨1, 1, 1, 2, 3, 6⟩] := by
  refine ⟨rfl, ?_, rfl⟩
  decide

/-! ### C8 — password hashing is unsalted and deterministic -/

/-- Counterexample to C8: two distinct users who register the same
password DO end up with identical stored hashes —
`hash_password` is plain `sha256(password)`, a deterministic function
of the password alone, with no salt or key. -/
theorem same_password_same_stored_hash :
    ∃ s1 s2 : Store,
      create_user emptyStore "alice" "alice@example.com" "password123" = .ok (s1, 1) ∧
      create_user s1 "bob" "bob@example.com" "password123" = .ok (s2, 2) ∧
      s2.users.map (fun u => u.username) = ["alice", "bob"] ∧
      ∃ h : String, s2.users.map (fun u => u.password_hash) = [h, h] := by
  exact ⟨_, _, rfl, rfl, rfl, ⟨hash_password "password123", rfl⟩⟩

/-- C8 (amended): `authenticate_user` verifies by comparing the
unsalted SHA-256 hash of the supplied password with the stored hash
(never the plaintext), and the stored hash is a deterministic function
of the password alone: any two registrations with the same password
store identical hashes. -/
theorem authenticate_compares_unsalted_hash (s s1 s2 : Store)
    (u1 e1 u2 e2 p : String) (id1 id2 : Nat)
    (h1 : create_user s u1 e1 p = .ok (s1, id1))
    (h2 : create_user s1 u2 e2 p = .ok (s2, id2)) :
    (∃ r1 r2 : UserRow,
      s1.users = s.users ++ [r1] ∧ s2.users = s1.users ++ [r2] ∧
      r1.username = u1 ∧ r2.username = u2 ∧
      r1.password_hash = r2.password_hash) ∧
    (∀ username password : String,
      (authenticate_user s username password).isSome →
        ∃ u : UserRow, get_user_by_username s username = some u ∧
          hash_password password = u.password_hash) := by
  constructor
  · unfold create_user at h1 h2
    by_cases c1 : (s.users.any (fun u => u.username == u1) ||
        s.users.any (fun u => u.email == e1)) = true
    · rw [if_pos c1] at h1
      exact absurd h1 (by simp)
    · rw [if_neg c1] at h1
      have hs1 : s1 = { s with
          users := s.users ++ [⟨s.next_user_id, u1, e1, hash_password p⟩],
          next_user_id := s.next_user_id + 1 } := by
        cases h1
        rfl
      by_cases c2 : (s1.users.any (fun u => u.username == u2) ||
          s1.users.any (fun u => u.email == e2)) = true
      · rw [if_pos c2] at h2
        exact absurd h2 (by simp)
      · rw [if_neg c2] at h2
        have hs2 : s2 = { s1 with
            users := s1.users ++ [⟨s1.next_user_id, u2, e2, hash_password p⟩],
            next_user_id := s1.next_user_id + 1 } := by
          cases h2
          rfl
        refine ⟨⟨s.next_user_id, u1, e1, hash_password p⟩,
                ⟨s1.next_user_id, u2, e2, hash_password p⟩, ?_, ?_, rfl, rfl, rfl⟩
        · rw [hs1]
        · rw [hs2]
  · intro username password hsome
    unfold authenticate_user at hsome
    cases hfind : get_user_by_username s username with
    | none => rw [hfind] at hsome; simp at hsome
    | some u =>
        rw [hfind] at hsome
        refine ⟨u, rfl, ?_⟩
        by_cases hv : verify_password password u.password_hash = true
        · unfold verify_password at hv
          exact eq_of_beq hv
        · simp [hv] at hsome

/-- Witness for the amended C8 at concrete registrations. -/
theorem authenticate_compares_unsalted_hash_witness :
    ∃ s1 s2 : Store,
      create_user emptyStore "carol" "carol@example.com" "pw" = .ok (s1, 1) ∧
      create_user s1 "dave" "dave@example.com" "pw" = .ok (s2, 2) ∧
      ((∃ r1 r2 : UserRow,
          s1.users = emptyStore.users ++ [r1] ∧ s2.users = s1.users ++ [r2] ∧
          r1.username = "carol" ∧ r2.username = "dave" ∧
          r1.password_hash = r2.password_hash) ∧
       (∀ username password : String,
          (authenticate_user emptyStore username password).isSome →
            ∃ u : UserRow, get_user_by_username emptyStore username = some u ∧
              hash_password password = u.password_hash)) := by
  refine ⟨_, _, rfl, rfl, ?_⟩
  exact authenticate_compares_unsalted_hash emptyStore _ _ "carol" "carol@example.com"
    "dave" "dave@example.com" "pw" 1 2 rfl rfl

/-! ### C6 — `addLineItem` error handling -/

/-- Counterexample to C6: `add_order_detail` performs NO quantity
validation — with an existing product (id 1) and quantity `0 < 1` the
call succeeds and inserts a line item with quantity 0 instead of
failing with `InvalidArgument`. -/
theorem addLineItem_accepts_nonpositive_quantity :
    ∃ (s' : Store) (did : Nat),
      add_order_detail orderStore 1 1 0 = .ok (s', did) ∧
      ∃ d ∈ s'.order_details, d.order_id = 1 ∧ d.product_id = 1 ∧ d.quantity = 0 := by
  refine ⟨_, _, rfl, ?_⟩
  refine ⟨⟨2, 1, 1, 0, 3, 3 * ((0 : Int) : ℚ)⟩, ?_, rfl, rfl, rfl⟩
  simp only [List.mem_append, List.mem_singleton]
  exact Or.inr rfl

/-- C6 (amended): `add_order_detail` fails with the not-found error
(`ValueError("Product not found")`) when the product id has no row —
this check happens before any insert, so on that path nothing is
inserted and no total changes — but the quantity is never validated:
for an existing product the call succeeds for EVERY quantity,
including quantities below 1, inserting a line item with that
quantity. -/
theorem addLineItem_error_handling (s : Store) (oid pid : Nat) (q : Int) :
    (s.products.find? (fun p => p.product_id == pid) = none →
      add_order_detail s oid pid q = .error "Product not found") ∧
    (∀ prod : ProductRow,
      s.products.find? (fun p => p.product_id == pid) = some prod →
      ∃ (s' : Store) (did : Nat), add_order_detail s oid pid q = .ok (s', did) ∧
        s'.order_details = s.order_details ++
          [⟨s.next_detail_id, oid, pid, q, prod.unit_price,
            prod.unit_price * (q : ℚ)⟩]) := by
  constructor
  · intro hnone
    unfold add_order_detail
    rw [hnone]
  · intro prod hsome
    unfold add_order_detail
    rw [hsome]
    exact ⟨_, _, rfl, rfl⟩

/-- Witness for the amended C6: the not-found branch at product id 99
and the accepted quantity-0 insert at product id 1. -/
theorem addLineItem_error_handling_witness :
    add_order_detail orderStore 7 99 5 = .error "Product not found" ∧
    (∃ (s' : Store) (did : Nat), add_order_detail orderStore 7 1 0 = .ok (s', did) ∧
      s'.order_details = orderStore.order_details ++
        [⟨2, 7, 1, 0, 3, 3 * ((0 : Int) : ℚ)⟩]) := by
  constructor
  · exact (addLineItem_error_handling orderStore 7 99 5).1 rfl
  · exact (addLineItem_error_handling orderStore 7 1 0).2 ⟨1, "Milk", 1, none, 3, "unit"⟩ rfl

/-! ### C4 — `addItem` merges on conflict -/

/-- C4: starting from a list with no row for `(lid, pid)`, adding
quantity `q1` and then `q2` for the same product leaves exactly one
row for `(lid, pid)`, and its quantity is `q1 + q2`. -/
theorem addItem_merges_quantities (s : Store) (lid pid : Nat) (q1 q2 : Int)
    (h : ∀ i ∈ s.shopping_list_items, ¬(i.list_id = lid ∧ i.product_id = pid)) :
    ((add_item_to_shopping_list (add_item_to_shopping_list s lid pid q1)
        lid pid q2).shopping_list_items.filter
          (fun i => i.list_id == lid && i.product_id == pid)).map
            (fun i => i.quantity) = [q1 + q2] := by
  have hpred : ∀ i ∈ s.shopping_list_items,
      (i.list_id == lid && i.product_id == pid) = false := by
    intro i hmem
    have hne : ¬((i.list_id == lid && i.product_id == pid) = true) := fun hb =>
      h i hmem (by simpa [Bool.and_eq_true, beq_iff_eq] using hb)
    simp only [Bool.not_eq_true] at hne
    exact hne
  have hfind1 : s.shopping_list_items.find?
      (fun i => i.list_id == lid && i.product_id == pid) = none :=
    List.find?_eq_none.mpr (fun i hmem hb => by rw [hpred i hmem] at hb; cases hb)
  have hs1 : add_item_to_shopping_list s lid pid q1 =
      { s with
          shopping_list_items := s.shopping_list_items ++
            [⟨s.next_item_id, lid, pid, q1, false⟩],
          next_item_id := s.next_item_id + 1 } := by
    unfold add_item_to_shopping_list
    rw [hfind1]
  rw [hs1]
  have hnewpred : ((⟨s.next_item_id, lid, pid, q1, false⟩ :
      ShoppingListItemRow).list_id == lid &&
      (⟨s.next_item_id, lid, pid, q1, false⟩ :
        ShoppingListItemRow).product_id == pid) = true := by simp
  have hfind2 : (s.shopping_list_items ++
      [(⟨s.next_item_id, lid, pid, q1, false⟩ : ShoppingListItemRow)]).find?
        (fun i => i.list_id == lid && i.product_id == pid) =
      some ⟨s.next_item_id, lid, pid, q1, false⟩ := by
    rw [List.find?_append]
    rw [hfind1]
    simp
  unfold add_item_to_shopping_list
  rw [hfind2]
  simp only [List.map_append, List.filter_append]
  rw [map_eq_self_of (l := s.shopping_list_items)
    (fun i hmem => by rw [hpred i hmem]; rfl)]
  rw [List.filter_eq_nil_iff.mpr
    (fun i hmem hb => by rw [hpred i hmem] at hb; cases hb)]
  simp [Int.add_comm q1 q2]

/-- Witness for C4 at a concrete store. -/
theorem addItem_merges_quantities_witness :
    ((add_item_to_shopping_list (add_item_to_shopping_list emptyStore 1 1 2)
        1 1 3).shopping_list_items.filter
          (fun i => i.list_id == 1 && i.product_id == 1)).map
            (fun i => i.quantity) = [2 + 3] :=
  addItem_merges_quantities emptyStore 1 1 2 3 (by decide)

/-! ### C1 — order total equals the sum of line-item subtotals -/

theorem add_order_detail_preserves_invariant {s s' : Store} {oid pid : Nat}
    {q : Int} {did : Nat} (hinv : orderInvariant s oid)
    (hok : add_order_detail s oid pid q = .ok (s', did)) :
    orderInvariant s' oid := by
  unfold add_order_detail at hok
  cases hfind : s.products.find? (fun p => p.product_id == pid) with
  | none => rw [hfind] at hok; cases hok
  | some prod =>
      rw [hfind] at hok
      injection hok with hpair
      injection hpair with hs hdid
      have hfilter : (s.order_details ++
          [(⟨s.next_detail_id, oid, pid, q, prod.unit_price,
            prod.unit_price * (q : ℚ)⟩ : OrderDetailRow)]).filter
            (fun d => d.order_id == oid) =
          orderDetailsOf s oid ++
            [⟨s.next_detail_id, oid, pid, q, prod.unit_price,
              prod.unit_price * (q : ℚ)⟩] := by
        unfold orderDetailsOf
        simp [List.filter_append]
      have hdet : orderDetailsOf s' oid =
          orderDetailsOf s oid ++
            [⟨s.next_detail_id, oid, pid, q, prod.unit_price,
              prod.unit_price * (q : ℚ)⟩] := by
        rw [← hs]
        unfold orderDetailsOf
        exact hfilter
      have horders : s'.orders = s.orders.map (fun o =>
          if o.order_id == oid then
            { o with total_amount := (((s.order_details ++
                [(⟨s.next_detail_id, oid, pid, q, prod.unit_price,
                  prod.unit_price * (q : ℚ)⟩ : OrderDetailRow)]).filter
                  (fun d => d.order_id == oid)).map (fun d => d.subtotal)).sum }
          else o) := by
        rw [← hs]
      refine ⟨?_, ?_, ?_⟩
      · obtain ⟨o, ho, hid⟩ := hinv.1
        rw [horders]
        refine ⟨_, List.mem_map_of_mem _ ho, ?_⟩
        by_cases hb : (o.order_id == oid) = true
        · rw [if_pos hb]
          exact hid
        · rw [if_neg hb]
          exact hid
      · intro o' ho' hid'
        rw [horders] at ho'
        obtain ⟨o, ho, hfo⟩ := List.mem_map.mp ho'
        rw [hdet]
        by_cases hb : (o.order_id == oid) = true
        · rw [if_pos hb] at hfo
          rw [← hfo]
          show (((s.order_details ++
              [(⟨s.next_detail_id, oid, pid, q, prod.unit_price,
                prod.unit_price * (q : ℚ)⟩ : OrderDetailRow)]).filter
                (fun d => d.order_id == oid)).map (fun d => d.subtotal)).sum = _
          rw [hfilter]
        · rw [if_neg hb] at hfo
          rw [← hfo] at hid'
          exact absurd (by simp [hid']) hb
      · intro d hd
        rw [hdet] at hd
        rcases List.mem_append.mp hd with hold | hnew
        · exact hinv.2.2 d hold
        · rw [List.mem_singleton.mp hnew]

theorem run_adds_preserves_invariant (oid : Nat) (reqs : List (Nat × Int)) :
    ∀ s s' : Store, orderInvariant s oid → run_adds oid s reqs = .ok s' →
      orderInvariant s' oid := by
  induction reqs with
  | nil =>
      intro s s' hinv hrun
      unfold run_adds at hrun
      injection hrun with hss
      rw [← hss]
      exact hinv
  | cons r rest ih =>
      intro s s' hinv hrun
      unfold run_adds at hrun
      cases hok : add_order_detail s oid r.1 r.2 with
      | error e => rw [hok] at hrun; cases hrun
      | ok p =>
          rw [hok] at hrun
          exact ih p.1 s' (add_order_detail_preserves_invariant hinv hok) hrun

theorem create_order_establishes_invariant (s : Store) (uid : Nat) (now : Int)
    (hd : ∀ d ∈ s.order_details, d.order_id ≠ s.next_order_id)
    (ho : ∀ o ∈ s.orders, o.order_id ≠ s.next_order_id) :
    orderInvariant (create_order s uid now).1 s.next_order_id := by
  have hdet : orderDetailsOf (create_order s uid now).1 s.next_order_id = [] := by
    unfold create_order orderDetailsOf
    exact List.filter_eq_nil_iff.mpr
      (fun d hmem hb => hd d hmem (by simpa using hb))
  refine ⟨?_, ?_, ?_⟩
  · exact ⟨⟨s.next_order_id, uid, now, 0, "pending"⟩, by
      unfold create_order
      simp, rfl⟩
  · intro o hmem hid
    rw [hdet]
    unfold create_order at hmem
    rcases List.mem_append.mp hmem with hold | hnew
    · exact absurd hid (ho o hold)
    · rw [List.mem_singleton.mp hnew]
      rfl
  · intro d hd2
    rw [hdet] at hd2
    cases hd2

/-- C1: starting from a fresh `create_order` and after any sequence of
successful `add_order_detail` calls, the order row exists, its
`total_amount` equals the sum of the subtotals of its line items, and
every such subtotal equals the captured unit price times the quantity.
The two freshness hypotheses are the SQLite `AUTOINCREMENT` guarantee:
the next order id never collides with an existing order or line
item. -/
theorem order_total_is_sum_of_subtotals (s : Store) (uid : Nat) (now : Int)
    (reqs : List (Nat × Int)) (s' : Store)
    (hd : ∀ d ∈ s.order_details, d.order_id ≠ s.next_order_id)
    (ho : ∀ o ∈ s.orders, o.order_id ≠ s.next_order_id)
    (hrun : run_adds s.next_order_id (create_order s uid now).1 reqs = .ok s') :
    (∃ o ∈ s'.orders, o.order_id = s.next_order_id) ∧
    (∀ o ∈ s'.orders, o.order_id = s.next_order_id →
      o.total_amount =
        ((orderDetailsOf s' s.next_order_id).map (fun d => d.subtotal)).sum) ∧
    (∀ d ∈ orderDetailsOf s' s.next_order_id,
      d.subtotal = d.unit_price * (d.quantity : ℚ)) :=
  run_adds_preserves_invariant s.next_order_id reqs (create_order s uid now).1 s'
    (create_order_establishes_invariant s uid now hd ho) hrun

/-- Witness for C1: two line items (product 1 twice at price 3,
product 2 once at price 5) on a fresh order of `exampleStore`. -/
theorem order_total_is_sum_of_subtotals_witness :
    ∃ s' : Store,
      run_adds exampleStore.next_order_id
        (create_order exampleStore 1 0).1 [(1, 2), (2, 1)] = .ok s' ∧
      ((∃ o ∈ s'.orders, o.order_id = exampleStore.next_order_id) ∧
       (∀ o ∈ s'.orders, o.order_id = exampleStore.next_order_id →
         o.total_amount =
           ((orderDetailsOf s' exampleStore.next_order_id).map
             (fun d => d.subtotal)).sum) ∧
       (∀ d ∈ orderDetailsOf s' exampleStore.next_order_id,
         d.subtotal = d.unit_price * (d.quantity : ℚ))) := by
  refine ⟨_, rfl, ?_⟩
  exact order_total_is_sum_of_subtotals exampleStore 1 0 [(1, 2), (2, 1)] _
    (by decide) (by decide) rfl

/-! ### C7 — analytics and order status -/

theorem filter_completed_filter (l : List OrderRow) (p : OrderRow → Bool)
    (himp : ∀ o, p o = true → (o.status == "completed") = true) :
    (l.filter (fun o => o.status == "completed")).filter p = l.filter p := by
  rw [List.filter_filter]
  exact List.filter_congr (fun o _ => by
    cases hp : p o
    · simp
    · simp [himp o hp])

theorem spendingRows_completedOnly (s : Store) (uid : Nat) (startD endD : Option Int) :
    spendingRows (completedOnly s) uid startD endD = spendingRows s uid startD endD := by
  unfold spendingRows completedOnly
  refine congrArg (fun f => s.order_details.filterMap f) (funext (fun od => ?_))
  rw [find?_filter_of_imp s.orders (fun o hpo => by
    simp only [Bool.and_eq_true] at hpo
    tauto)]

theorem purchasedRows_completedOnly (s : Store) (uid : Nat) :
    purchasedRows (completedOnly s) uid = purchasedRows s uid := by
  unfold purchasedRows completedOnly
  refine congrArg (fun f => s.order_details.filterMap f) (funext (fun od => ?_))
  rw [find?_filter_of_imp s.orders (fun o hpo => by
    simp only [Bool.and_eq_true] at hpo
    tauto)]

/-- C7 (amended): the five aggregation queries `get_total_spending`,
`get_spending_by_category`, `get_monthly_spending`,
`get_weekly_spending` and `get_most_purchased_products` depend only on
the user's orders with status `completed`: deleting every
non-completed order changes none of their results.
`get_suggested_products` is NOT in this list — its CTEs filter only on
`user_id`, so pending orders do influence its candidate pool (see the
counterexample). -/
theorem analytics_use_only_completed_orders (s : Store) (uid : Nat)
    (startD endD : Option Int) (year : Option Int) (now : Int) (limit : Nat) :
    get_total_spending (completedOnly s) uid = get_total_spending s uid ∧
    get_spending_by_category (completedOnly s) uid startD endD =
      get_spending_by_category s uid startD endD ∧
    get_monthly_spending (completedOnly s) uid year = get_monthly_spending s uid year ∧
    get_weekly_spending (completedOnly s) uid now = get_weekly_spending s uid now ∧
    get_most_purchased_products (completedOnly s) uid limit =
      get_most_purchased_products s uid limit := by
  refine ⟨?_, ?_, ?_, ?_, ?_⟩
  · unfold get_total_spending completedOnly
    rw [filter_completed_filter s.orders _ (fun o hpo => by
      simp only [Bool.and_eq_true] at hpo
      tauto)]
  · unfold get_spending_by_category
    rw [spendingRows_completedOnly]
  · unfold get_monthly_spending completedOnly
    rw [filter_completed_filter s.orders _ (fun o hpo => by
      simp only [Bool.and_eq_true] at hpo
      tauto)]
  · unfold get_weekly_spending completedOnly
    rw [filter_completed_filter s.orders _ (fun o hpo => by
      simp only [Bool.and_eq_true] at hpo
      tauto)]
  · unfold get_most_purchased_products
    rw [purchasedRows_completedOnly]

/-- Counterexample to C7: `get_suggested_products` is influenced by a
pending order.  In `pendingStore` the single PENDING order makes
category 1 a top category and excludes the recently bought product 1,
so the candidate pool is exactly product 2 — while with the pending
order removed the pool is empty.  Since the query returns
`min limit pool.length` rows drawn from this pool, the pending order
changes its output. -/
theorem suggested_products_see_pending_orders :
    (get_suggested_products_pool pendingStore 1 100).map (fun r => r.1.product_id) = [2] ∧
    get_suggested_products_pool (completedOnly pendingStore) 1 100 = [] ∧
    get_suggested_products_pool pendingStore 1 100 ≠
      get_suggested_products_pool (completedOnly pendingStore) 1 100 := by
  refine ⟨by decide, by decide, by decide⟩

/-! ### C2/C3 — list-to-order conversion -/

theorem mem_items_find_product {s : Store} {lid : Nat} {it : SLIJoinedRow}
    (h : it ∈ get_shopping_list_items s lid) :
    ∃ p : ProductRow,
      s.products.find? (fun pp => pp.product_id == it.product_id) = some p ∧
      it.unit_price = p.unit_price := by
  unfold get_shopping_list_items at h
  rw [mem_sortLe] at h
  obtain ⟨i, hi, hji⟩ := List.mem_filterMap.mp h
  unfold joinItem at hji
  cases hfp : s.products.find? (fun pp => pp.product_id == i.product_id) with
  | none => simp [hfp] at hji
  | some p =>
      simp only [hfp] at hji
      cases hfc : s.categories.find? (fun c => c.category_id == p.category_id) with
      | none => simp [hfc] at hji
      | some c =>
          simp only [hfc] at hji
          injection hji with hji
          rw [← hji]
          exact ⟨p, hfp, rfl⟩

theorem run_items_spec (oid : Nat) (items : List SLIJoinedRow) :
    ∀ s : Store,
    (∀ it ∈ items, ∃ p : ProductRow,
      s.products.find? (fun pp => pp.product_id == it.product_id) = some p ∧
      it.unit_price = p.unit_price) →
    ∃ s' : Store, run_items oid s items = .ok s' ∧
      s'.order_details.map dproj =
        s.order_details.map dproj ++ items.map (itemDetail oid) ∧
      s'.orders.map oproj = s.orders.map oproj ∧
      s'.products = s.products ∧
      s'.categories = s.categories ∧
      s'.shopping_lists = s.shopping_lists ∧
      s'.shopping_list_items = s.shopping_list_items := by
  induction items with
  | nil =>
      intro s _
      exact ⟨s, rfl, by simp, rfl, rfl, rfl, rfl, rfl⟩
  | cons it rest ih =>
      intro s h
      obtain ⟨p, hfp, hprice⟩ := h it (List.mem_cons_self it rest)
      have hadd : add_order_detail s oid it.product_id it.quantity =
          .ok ({ s with
                  order_details := s.order_details ++
                    [⟨s.next_detail_id, oid, it.product_id, it.quantity, p.unit_price,
                      p.unit_price * (it.quantity : ℚ)⟩],
                  orders := s.orders.map (fun o =>
                    if o.order_id == oid then
                      { o with total_amount := (((s.order_details ++
                          [(⟨s.next_detail_id, oid, it.product_id, it.quantity,
                            p.unit_price, p.unit_price * (it.quantity : ℚ)⟩ :
                              OrderDetailRow)]).filter
                            (fun d => d.order_id == oid)).map
                              (fun d => d.subtotal)).sum }
                    else o),
                  next_detail_id := s.next_detail_id + 1 }, s.next_detail_id) := by
        unfold add_order_detail
        rw [hfp]
      obtain ⟨s', hrun, hdetails, horders, hprods, hcats, hlists, hitems⟩ :=
        ih { s with
              order_details := s.order_details ++
                [⟨s.next_detail_id, oid, it.product_id, it.quantity, p.unit_price,
                  p.unit_price * (it.quantity : ℚ)⟩],
              orders := s.orders.map (fun o =>
                if o.order_id == oid then
                  { o with total_amount := (((s.order_details ++
                      [(⟨s.next_detail_id, oid, it.product_id, it.quantity,
                        p.unit_price, p.unit_price * (it.quantity : ℚ)⟩ :
                          OrderDetailRow)]).filter
                        (fun d => d.order_id == oid)).map
                          (fun d => d.subtotal)).sum }
                else o),
              next_detail_id := s.next_detail_id + 1 }
          (fun it2 hit2 => h it2 (List.mem_cons_of_mem it hit2))
      refine ⟨s', ?_, ?_, ?_, hprods, hcats, hlists, hitems⟩
      · unfold run_items
        rw [hadd]
        exact hrun
      · rw [hdetails]
        have hhead : dproj (⟨s.next_detail_id, oid, it.product_id, it.quantity,
            p.unit_price, p.unit_price * (it.quantity : ℚ)⟩ : OrderDetailRow) =
            itemDetail oid it := by
          unfold dproj itemDetail
          rw [hprice]
        show (s.order_details ++ [_]).map dproj ++ _ = _
        rw [List.map_append]
        rw [List.map_singleton, hhead, List.append_assoc, List.singleton_append,
          List.map_cons]
      · rw [horders]
        show (s.orders.map _).map oproj = _
        rw [List.map_map]
        refine List.map_congr_left (fun o _ => ?_)
        by_cases hb : (o.order_id == oid) = true
        · simp only [Function.comp, if_pos hb]
          rfl
        · simp only [Function.comp, if_neg hb]

theorem joinItem_proj {s : Store} {i : ShoppingListItemRow} {it : SLIJoinedRow}
    (h : joinItem s i = some it) :
    it.item_id = i.item_id ∧ it.product_id = i.product_id ∧ it.quantity = i.quantity := by
  unfold joinItem at h
  cases hfp : s.products.find? (fun pp => pp.product_id == i.product_id) with
  | none => simp [hfp] at h
  | some p =>
      simp only [hfp] at h
      cases hfc : s.categories.find? (fun c => c.category_id == p.category_id) with
      | none => simp [hfc] at h
      | some c =>
          simp only [hfc] at h
          injection h with h
          rw [← h]
          exact ⟨rfl, rfl, rfl⟩

theorem filterMap_joinItem_proj (s : Store) (l : List ShoppingListItemRow)
    (h : ∀ i ∈ l, (joinItem s i).isSome) :
    (l.filterMap (joinItem s)).map (fun it => (it.item_id, it.product_id, it.quantity)) =
      l.map (fun i => (i.item_id, i.product_id, i.quantity)) := by
  induction l with
  | nil => rfl
  | cons i rest ih =>
      obtain ⟨it, hit⟩ := Option.isSome_iff_exists.mp (h i (List.mem_cons_self i rest))
      rw [List.filterMap_cons, hit, List.map_cons, List.map_cons,
        ih (fun j hj => h j (List.mem_cons_of_mem i hj))]
      obtain ⟨h1, h2, h3⟩ := joinItem_proj hit
      rw [h1, h2, h3]

theorem get_shopping_list_items_length (s : Store) (lid : Nat)
    (hint : ∀ i ∈ s.shopping_list_items, i.list_id = lid → (joinItem s i).isSome) :
    (get_shopping_list_items s lid).length =
      (s.shopping_list_items.filter (fun i => i.list_id == lid)).length := by
  have hfm : ∀ i ∈ s.shopping_list_items.filter (fun i => i.list_id == lid),
      (joinItem s i).isSome := fun i hi =>
    hint i (List.mem_filter.mp hi).1 (by simpa using (List.mem_filter.mp hi).2)
  unfold get_shopping_list_items
  rw [(sortLe_perm sliLe _).length_eq]
  have hproj := filterMap_joinItem_proj s
    (s.shopping_list_items.filter (fun i => i.list_id == lid)) hfm
  calc ((s.shopping_list_items.filter (fun i => i.list_id == lid)).filterMap
          (joinItem s)).length
      = (((s.shopping_list_items.filter (fun i => i.list_id == lid)).filterMap
          (joinItem s)).map (fun it => (it.item_id, it.product_id, it.quantity))).length :=
        (List.length_map _ _).symm
    _ = ((s.shopping_list_items.filter (fun i => i.list_id == lid)).map
          (fun i => (i.item_id, i.product_id, i.quantity))).length := by rw [hproj]
    _ = (s.shopping_list_items.filter (fun i => i.list_id == lid)).length :=
        List.length_map _ _

/-- C2: converting a list that has at least one item (all of whose
items join to an existing product and category — referential
integrity) creates a COMPLETED order owned by the caller whose line
items are exactly the joined list items, each at the item's quantity
and the product's CURRENT price (the join carries `p.unit_price`; list
items store no price at all), deactivates the list, and deletes none
of its items.  `hd` is the `AUTOINCREMENT` freshness guarantee for the
new order id. -/
theorem convertToOrder_spec (s : Store) (lid uid : Nat) (now : Int)
    (hne : s.shopping_list_items.filter (fun i => i.list_id == lid) ≠ [])
    (hint : ∀ i ∈ s.shopping_list_items, i.list_id = lid → (joinItem s i).isSome)
    (hd : ∀ d ∈ s.order_details, d.order_id ≠ s.next_order_id) :
    ∃ s' : Store,
      convert_shopping_list_to_order s lid uid now = .ok (s', s.next_order_id) ∧
      (∃ o ∈ s'.orders, o.order_id = s.next_order_id ∧ o.user_id = uid ∧
        o.status = "completed") ∧
      (s'.order_details.filter (fun d => d.order_id == s.next_order_id)).map dproj =
        (get_shopping_list_items s lid).map (itemDetail s.next_order_id) ∧
      (∀ it ∈ get_shopping_list_items s lid, ∃ p : ProductRow,
        s.products.find? (fun pp => pp.product_id == it.product_id) = some p ∧
        it.unit_price = p.unit_price) ∧
      List.Perm
        ((get_shopping_list_items s lid).map
          (fun it => (it.item_id, it.product_id, it.quantity)))
        ((s.shopping_list_items.filter (fun i => i.list_id == lid)).map
          (fun i => (i.item_id, i.product_id, i.quantity))) ∧
      s'.shopping_lists = s.shopping_lists.map (fun l =>
        if l.list_id == lid then { l with is_active := false } else l) ∧
      s'.shopping_list_items = s.shopping_list_items := by
  have hpricemem : ∀ it ∈ get_shopping_list_items s lid, ∃ p : ProductRow,
      s.products.find? (fun pp => pp.product_id == it.product_id) = some p ∧
      it.unit_price = p.unit_price := fun it h => mem_items_find_product h
  obtain ⟨s2, hrun, hdet2, hord2, hprod2, hcat2, hsl2, hsli2⟩ :=
    run_items_spec s.next_order_id (get_shopping_list_items s lid)
      (create_order s uid now).1 hpricemem
  have hlen := get_shopping_list_items_length s lid hint
  have hempty : (get_shopping_list_items s lid).isEmpty = false := by
    cases hitems : get_shopping_list_items s lid with
    | nil =>
        exfalso
        apply hne
        rw [hitems] at hlen
        exact List.eq_nil_of_length_eq_zero hlen.symm
    | cons a l => rfl
  refine ⟨{ (complete_order s2 s.next_order_id).1 with
            shopping_lists :=
              (complete_order s2 s.next_order_id).1.shopping_lists.map
                (fun l =>
                  if l.list_id == lid then { l with is_active := false } else l) },
          ?_, ?_, ?_, hpricemem, ?_, ?_, ?_⟩
  · unfold convert_shopping_list_to_order
    rw [if_neg (by rw [hempty]; exact Bool.false_ne_true)]
    rw [show (create_order s uid now).2 = s.next_order_id from rfl]
    rw [hrun]
  · have hfreshproj : (s.next_order_id, uid, now, "pending") ∈ s2.orders.map oproj := by
      rw [hord2]
      show _ ∈ (s.orders ++
        [(⟨s.next_order_id, uid, now, 0, "pending"⟩ : OrderRow)]).map oproj
      rw [List.map_append]
      exact List.mem_append_right _ (by simp [oproj])
    obtain ⟨o2, ho2, hproj⟩ := List.mem_map.mp hfreshproj
    unfold oproj at hproj
    rw [Prod.mk.injEq, Prod.mk.injEq, Prod.mk.injEq] at hproj
    obtain ⟨hp1, hp2, _, hp4⟩ := hproj
    have hb : (o2.order_id == s.next_order_id) = true := by simp [hp1]
    have hmem2 : (if o2.order_id == s.next_order_id then
        { o2 with status := "completed" } else o2) ∈
        s2.orders.map (fun o => if o.order_id == s.next_order_id then
          { o with status := "completed" } else o) :=
      List.mem_map_of_mem _ ho2
    rw [if_pos hb] at hmem2
    exact ⟨{ o2 with status := "completed" }, hmem2, hp1, hp2, rfl⟩
  · have hleft : (s2.order_details.map dproj).filter
        (fun t => t.1 == s.next_order_id) =
        (s2.order_details.filter (fun d => d.order_id == s.next_order_id)).map dproj := by
      rw [List.filter_map]
      rfl
    show (s2.order_details.filter (fun d => d.order_id == s.next_order_id)).map dproj = _
    rw [← hleft, hdet2, List.filter_append]
    have hnil : ((create_order s uid now).1.order_details.map dproj).filter
        (fun t => t.1 == s.next_order_id) = [] :=
      List.filter_eq_nil_iff.mpr (fun t ht => by
        obtain ⟨d, hdm, hdp⟩ := List.mem_map.mp ht
        rw [← hdp]
        simp [dproj, hd d hdm])
    have hself : ((get_shopping_list_items s lid).map
        (itemDetail s.next_order_id)).filter (fun t => t.1 == s.next_order_id) =
        (get_shopping_list_items s lid).map (itemDetail s.next_order_id) :=
      List.filter_eq_self.mpr (fun t ht => by
        obtain ⟨it, him, hip⟩ := List.mem_map.mp ht
        rw [← hip]
        simp [itemDetail])
    rw [hnil, hself, List.nil_append]
  · have hfm : ∀ i ∈ s.shopping_list_items.filter (fun i => i.list_id == lid),
        (joinItem s i).isSome := fun i hi =>
      hint i (List.mem_filter.mp hi).1 (by simpa using (List.mem_filter.mp hi).2)
    have hproj := filterMap_joinItem_proj s
      (s.shopping_list_items.filter (fun i => i.list_id == lid)) hfm
    exact ((sortLe_perm sliLe _).map _).trans (hproj ▸ List.Perm.refl _)
  · show (complete_order s2 s.next_order_id).1.shopping_lists.map _ = _
    rw [show (complete_order s2 s.next_order_id).1.shopping_lists =
        s2.shopping_lists from rfl, hsl2]
    rfl
  · show s2.shopping_list_items = s.shopping_list_items
    rw [hsli2]
    rfl

/-- Witness for C2 at `exampleStore` (the spec's §8 example: items
(p1, qty 2) at price 3 and (p2, qty 1) at price 5). -/
theorem convertToOrder_spec_witness :
    ∃ s' : Store,
      convert_shopping_list_to_order exampleStore 1 1 0 =
        .ok (s', exampleStore.next_order_id) ∧
      (∃ o ∈ s'.orders, o.order_id = exampleStore.next_order_id ∧ o.user_id = 1 ∧
        o.status = "completed") ∧
      (s'.order_details.filter
        (fun d => d.order_id == exampleStore.next_order_id)).map dproj =
        (get_shopping_list_items exampleStore 1).map
          (itemDetail exampleStore.next_order_id) ∧
      (∀ it ∈ get_shopping_list_items exampleStore 1, ∃ p : ProductRow,
        exampleStore.products.find? (fun pp => pp.product_id == it.product_id) =
          some p ∧ it.unit_price = p.unit_price) ∧
      List.Perm
        ((get_shopping_list_items exampleStore 1).map
          (fun it => (it.item_id, it.product_id, it.quantity)))
        ((exampleStore.shopping_list_items.filter (fun i => i.list_id == 1)).map
          (fun i => (i.item_id, i.product_id, i.quantity))) ∧
      s'.shopping_lists = exampleStore.shopping_lists.map (fun l =>
        if l.list_id == 1 then { l with is_active := false } else l) ∧
      s'.shopping_list_items = exampleStore.shopping_list_items :=
  convertToOrder_spec exampleStore 1 1 0 (by decide) (by decide) (by decide)

/-- C3 (amended): conversion of a list whose (joined) item set is
empty — in particular a list with zero items — fails with the
empty-list error before any insert, so no order is created.  The
source, however, never inspects `is_active`: converting an
already-converted, inactive list whose items remain succeeds and
creates a second order (see the counterexample). -/
theorem convert_empty_list_fails (s : Store) (lid uid : Nat) (now : Int)
    (h : get_shopping_list_items s lid = []) :
    convert_shopping_list_to_order s lid uid now = .error "Shopping list is empty" := by
  unfold convert_shopping_list_to_order
  rw [h]
  rfl

/-- Witness for the amended C3: converting the zero-item list
fails with the empty-list error. -/
theorem convert_empty_list_fails_witness :
    convert_shopping_list_to_order emptyListStore 1 1 0 =
      .error "Shopping list is empty" :=
  convert_empty_list_fails emptyListStore 1 1 0 rfl

/-- Counterexample to C3: a second conversion of an already-converted
list does NOT fail — after the first conversion the list is inactive
(`is_active = false`) and its items remain, yet because
`convert_shopping_list_to_order` never checks `is_active`, the second
call succeeds, returning a second order id (2) and leaving two orders
in the store. -/
theorem second_convert_creates_second_order :
    convertOrderId exampleStore 1 1 0 = some 1 ∧
    (convertStore exampleStore 1 1 0).map
      (fun s1 => (s1.shopping_lists.all (fun l => !l.is_active),
                  s1.shopping_list_items)) =
      some (true, exampleStore.shopping_list_items) ∧
    (convertStore exampleStore 1 1 0).bind
      (fun s1 => convertOrderId s1 1 1 0) = some 2 ∧
    (convertStore exampleStore 1 1 0).bind
      (fun s1 => (convertStore s1 1 1 0).map (fun s2 => s2.orders.length)) =
      some 2 := by
  refine ⟨by decide, by decide, by decide, by decide⟩

end GroceryDB
